import Mathlib

/-!
Shallow embedding of the scoring engine of `GitHub-Analyzer/github_analyzer.py`
(the composite profile-strength analyzer).

Modelling conventions:
* Python dict fields that may be absent or `None` are `Option` fields; Python
  truthiness of a string field (`if user_data.get('name'):`) is "present and
  non-empty".
* Timestamps are integers (microseconds since an arbitrary epoch); the source
  stores `updated_at` / `created_at` as strings and parses them with
  `datetime.strptime`, which raises on malformed input.  We model the parse
  result directly in the record: `some t` is a parseable timestamp with value
  `t`, `none` is a timestamp on which `strptime` (or the dict lookup) would
  raise.  Analyzers that may hit a raising parse return `Option`: `none`
  models the exception escaping the function.
* `timedelta(days=90)` is 90 days of microseconds; `(now - latest).days` is
  floor division by a day of microseconds, matching `timedelta.days`.
* Python float arithmetic in the documentation-percentage and recency-fraction
  comparisons is modelled as exact rational arithmetic over `ℚ`
  (the float literals `0.5` and `0.3` become `1/2` and `3/10`).
* `datetime.now()` in the source is called once per repository inside the
  recency generator of `analyze_repository_quality` and once more in
  `analyze_activity_consistency`.  Analyzers therefore take a clock
  `ℕ → ℤ` mapping the index of a `now()` read (in program order) to the value
  read.  ANSI colour codes and numeric `format` specifiers in the detail
  strings are elided; the strings keep the source wording.
-/

namespace GithubAnalyzer

/-- Microseconds in one day (`timedelta(days=1)` at `datetime` resolution). -/
def microPerDay : ℤ := 86400000000

/-- Python truthiness of an optional string field: present and non-empty. -/
def truthy : Option String → Bool
  | none => false
  | some s => s != ""

/-- The user profile record consumed by `analyze_profile_completeness`
(the fields of the GitHub user JSON object that the function reads). -/
structure AccountProfile where
  name : Option String
  bio : Option String
  location : Option String
  company : Option String
  email : Option String
  blog : Option String
  twitter_username : Option String
  followers : ℕ
deriving DecidableEq, Repr

/-- One repository record as consumed by `analyze_repository_quality`.
`updated_at = some t` models a parseable `updated_at` string denoting time
`t`; `none` models a missing or malformed string on which the source would
raise. -/
structure RepoRecord where
  description : Option String
  language : Option String
  stargazers_count : ℕ
  forks_count : ℕ
  updated_at : Option ℤ
deriving DecidableEq, Repr

/-- One activity event as consumed by `analyze_activity_consistency`. -/
structure ActivityEvent where
  type : Option String
  created_at : Option ℤ
deriving DecidableEq, Repr

/-- A category analysis result: `{'score': ..., 'details': [...]}`. -/
structure CategoryResult where
  score : ℕ
  details : List String
deriving DecidableEq, Repr

/-! ## `analyze_profile_completeness` (source lines 77-134) -/

/-- Score of `analyze_profile_completeness`: the sequence of
`if ...: score += k` blocks, one per profile field. -/
def profileScore (u : AccountProfile) : ℕ :=
  (if truthy u.name then 10 else 0) +
  (if truthy u.bio then 10 else 0) +
  (if truthy u.location then 10 else 0) +
  (if truthy u.company then 10 else 0) +
  (if truthy u.email then 15 else 0) +
  (if truthy u.blog then 15 else 0) +
  (if truthy u.twitter_username then 15 else 0) +
  (if u.followers > 0 then 15 else 0)

/-- Detail strings of `analyze_profile_completeness`, in source order. -/
def profileDetails (u : AccountProfile) : List String :=
  [ if truthy u.name then "✓ Name provided" else "✗ Name missing",
    if truthy u.bio then "✓ Bio provided" else "✗ Bio missing",
    if truthy u.location then "✓ Location provided" else "✗ Location missing",
    if truthy u.company then "✓ Company provided" else "✗ Company missing",
    if truthy u.email then "✓ Email provided" else "✗ Email missing",
    if truthy u.blog then "✓ Website/blog provided" else "✗ Website/blog missing",
    if truthy u.twitter_username then "✓ Twitter linked" else "✗ Twitter not linked",
    if u.followers > 0 then "✓ Has followers (" ++ toString u.followers ++ ")"
      else "✗ No followers" ]

/-- The function `analyze_profile_completeness`: returns `{'score': score, 'details': details}`.
It performs no timestamp parsing and cannot raise. -/
def analyze_profile_completeness (u : AccountProfile) : CategoryResult :=
  { score := profileScore u, details := profileDetails u }

/-! ## `analyze_repository_quality` (source lines 136-216) -/

/-- Transcribes `documented_repos = sum(1 for repo in repos_data if repo.get('description'))`. -/
def documentedCount (repos : List RepoRecord) : ℕ :=
  (repos.filter (fun r => truthy r.description)).length

/-- The set built by the language-diversity loop: distinct truthy
`repo.get('language')` values.  `List.dedup` realises the set cardinality. -/
def languageCount (repos : List RepoRecord) : ℕ :=
  ((repos.filterMap (fun r =>
      if truthy r.language then r.language else none)).dedup).length

/-- Transcribes `total_stars = sum(repo.get('stargazers_count', 0) for repo in repos_data)`. -/
def totalStars (repos : List RepoRecord) : ℕ :=
  (repos.map RepoRecord.stargazers_count).sum

/-- Transcribes `total_forks = sum(repo.get('forks_count', 0) for repo in repos_data)`.
Computed by the source and never used again. -/
def totalForks (repos : List RepoRecord) : ℕ :=
  (repos.map RepoRecord.forks_count).sum

/-- The recency generator:
`sum(1 for repo in repos_data if strptime(repo['updated_at']) > datetime.now() - timedelta(days=90))`.
The repository at (0-based) position `j` of the traversal uses the `(i+j)`-th
`now()` read, where `i` is the index of the first read available to the
generator; a `none` timestamp makes `strptime` raise, modelled as `none`. -/
def recentCount : List RepoRecord → (ℕ → ℤ) → ℕ → Option ℕ
  | [], _, _ => some 0
  | r :: rs, clock, i =>
    match r.updated_at with
    | none => none
    | some t =>
      match recentCount rs clock (i + 1) with
      | none => none
      | some n => some (if t > clock i - 90 * microPerDay then n + 1 else n)

/-- Repository-count block (max 20): `>=10 → 20; >=5 → 15; else 10`. -/
def countSub (n : ℕ) : ℕ :=
  if n ≥ 10 then 20 else if n ≥ 5 then 15 else 10

/-- Transcribes `doc_percentage = (documented_repos / repo_count) * 100`, float division
modelled exactly over `ℚ`. -/
def docPercentage (documented total : ℕ) : ℚ :=
  (documented : ℚ) / (total : ℚ) * 100

/-- Documentation block (max 25): `>=80 → 25; >=60 → 20; else 10`. -/
def docSub (documented total : ℕ) : ℕ :=
  if docPercentage documented total ≥ 80 then 25
  else if docPercentage documented total ≥ 60 then 20
  else 10

/-- Language-diversity block (max 20): `>=5 → 20; >=3 → 15; else 10`. -/
def langSub (n : ℕ) : ℕ :=
  if n ≥ 5 then 20 else if n ≥ 3 then 15 else 10

/-- Stars block (max 15): `>=50 → 15; >=10 → 10; else 5`. -/
def starSub (n : ℕ) : ℕ :=
  if n ≥ 50 then 15 else if n ≥ 10 then 10 else 5

/-- Recency block (max 15):
`recent >= count*0.5 → 15; recent >= count*0.3 → 10; else 5`
(float literals `0.5` and `0.3` as exact rationals). -/
def recencySub (recent total : ℕ) : ℕ :=
  if (recent : ℚ) ≥ (total : ℚ) * (1 / 2) then 15
  else if (recent : ℚ) ≥ (total : ℚ) * (3 / 10) then 10
  else 5

/-- Detail strings of the five scoring blocks, in source order.  The recency
detail is only reached when every timestamp parses; callers pair it with a
successful `recentCount`. -/
def repoDetails (repos : List RepoRecord) (recent : ℕ) : List String :=
  [ (if repos.length ≥ 10 then "✓ Good repository count"
     else if repos.length ≥ 5 then "○ Moderate repository count"
     else "△ Few repositories") ++ " (" ++ toString repos.length ++ ")",
    if docPercentage (documentedCount repos) repos.length ≥ 80 then
      "✓ Excellent documentation"
    else if docPercentage (documentedCount repos) repos.length ≥ 60 then
      "○ Good documentation"
    else "△ Poor documentation",
    (if languageCount repos ≥ 5 then "✓ Great language diversity"
     else if languageCount repos ≥ 3 then "○ Good language diversity"
     else "△ Limited language diversity") ++
      " (" ++ toString (languageCount repos) ++ " languages)",
    (if totalStars repos ≥ 50 then "✓ Great community engagement"
     else if totalStars repos ≥ 10 then "○ Good community engagement"
     else "△ Limited community engagement") ++
      " (" ++ toString (totalStars repos) ++ " stars)",
    (if (recent : ℚ) ≥ (repos.length : ℚ) * (1 / 2) then "✓ Active maintenance"
     else if (recent : ℚ) ≥ (repos.length : ℚ) * (3 / 10) then "○ Moderate maintenance"
     else "△ Limited maintenance") ++
      " (" ++ toString recent ++ " recently updated)" ]

/-- The function `analyze_repository_quality`.  Empty input short-circuits to score 0 with a
single detail before any clock read or parse; otherwise the five blocks are
summed.  A malformed timestamp makes the recency generator raise
(`none`): the source appends the first four details before the exception, but
the exception discards the half-built result, so only `none` is observable. -/
def analyze_repository_quality (repos : List RepoRecord) (clock : ℕ → ℤ) :
    Option CategoryResult :=
  if repos.isEmpty then some { score := 0, details := ["✗ No repositories"] }
  else
    match recentCount repos clock 0 with
    | none => none
    | some recent =>
      some { score :=
               countSub repos.length +
               docSub (documentedCount repos) repos.length +
               langSub (languageCount repos) +
               starSub (totalStars repos) +
               recencySub recent repos.length,
             details := repoDetails repos recent }

/-! ## `analyze_activity_consistency` (source lines 218-267) -/

/-- Transcribes `event_types = set(event.get('type', '') for event in events_data)`:
a missing `type` contributes the empty string to the set. -/
def typeCount (events : List ActivityEvent) : ℕ :=
  ((events.map (fun e => e.type.getD "")).dedup).length

/-- Volume block (max 50): `>=50 → 50; >=20 → 40; else 25`. -/
def volumeSub (n : ℕ) : ℕ :=
  if n ≥ 50 then 50 else if n ≥ 20 then 40 else 25

/-- Type-diversity block (max 30): `>=5 → 30; >=3 → 20; else 15`. -/
def typeDivSub (n : ℕ) : ℕ :=
  if n ≥ 5 then 30 else if n ≥ 3 then 20 else 15

/-- Consistency block (max 20): `days <= 7 → 20; days <= 30 → 15; else 10`. -/
def actRecencySub (days : ℤ) : ℕ :=
  if days ≤ 7 then 20 else if days ≤ 30 then 15 else 10

/-- Detail strings of the three activity blocks, in source order. -/
def activityDetails (events : List ActivityEvent) (days : ℤ) : List String :=
  [ (if events.length ≥ 50 then "✓ Very active"
     else if events.length ≥ 20 then "○ Active"
     else "△ Limited activity") ++
      " (" ++ toString events.length ++ " recent events)",
    (if typeCount events ≥ 5 then "✓ Diverse activity types"
     else if typeCount events ≥ 3 then "○ Good activity diversity"
     else "△ Limited activity diversity") ++
      " (" ++ toString (typeCount events) ++ " types)",
    (if days ≤ 7 then "✓ Very recent activity"
     else if days ≤ 30 then "○ Recent activity"
     else "△ Activity not recent") ++
      " (" ++ toString days ++ " days ago)" ]

/-- The function `analyze_activity_consistency`.  Empty input short-circuits to score 0 with
a single detail before any parse or clock read.  Otherwise
`days_since_last = (now - strptime(events_data[0]['created_at'])).days`
(floor division, matching `timedelta.days`); a malformed first timestamp
raises (`none`). -/
def analyze_activity_consistency (events : List ActivityEvent) (now : ℤ) :
    Option CategoryResult :=
  match events with
  | [] => some { score := 0, details := ["✗ No recent activity"] }
  | e :: _ =>
    match e.created_at with
    | none => none
    | some t =>
      let days := (now - t).fdiv microPerDay
      some { score := volumeSub events.length + typeDivSub (typeCount events) +
                      actRecencySub days,
             details := activityDetails events days }

/-! ## `main` (source lines 290-360): aggregation, tier, recommendations -/

/-- Transcribes `total_score = profile['score'] + repo['score'] + activity['score']`
(source line 318); no clamping is applied. -/
def total_score (p r a : ℕ) : ℕ := p + r + a

/-- Tier of the composite total, following the `if total_score >= 240 / elif
total_score >= 180 / else` chain of `main` (source lines 353-358), with the
tier labels of the output contract. -/
def tierOf (total : ℕ) : String :=
  if total ≥ 240 then "excellent"
  else if total ≥ 180 then "good"
  else "needs improvement"

/-- Remark printed when the profile score is below 80. -/
def profileRemark : String := "• Complete your profile with missing information"

/-- First remark printed when the repository score is below 80. -/
def repoRemark1 : String := "• Add descriptions to your repositories"

/-- Second remark printed when the repository score is below 80. -/
def repoRemark2 : String := "• Diversify your programming languages"

/-- Remark printed when the activity score is below 80. -/
def activityRemark : String := "• Increase your GitHub activity and consistency"

/-- The tier-driven closing remark (source lines 353-358). -/
def closingRemark (total : ℕ) : String :=
  if total ≥ 240 then "🎉 Excellent GitHub presence! Keep up the great work!"
  else if total ≥ 180 then "👍 Good GitHub presence with room for improvement"
  else "📈 Focus on building a stronger GitHub presence"

/-- The recommendation lines printed by `main` (source lines 345-358), in
print order, as a function of the three category scores. -/
def recommendations (p r a : ℕ) : List String :=
  (if p < 80 then [profileRemark] else []) ++
  (if r < 80 then [repoRemark1, repoRemark2] else []) ++
  (if a < 80 then [activityRemark] else []) ++
  [closingRemark (total_score p r a)]

/-! ## The analysis run and its clock reads

`main` analyzes the three collections in order.  Only
`analyze_repository_quality` (one `datetime.now()` per repository) and
`analyze_activity_consistency` (one `datetime.now()`) read the clock, so in a
run over `repos` the repository analyzer consumes reads `0 .. repos.length-1`
and the activity analyzer's read has index `repos.length` (an empty
repository list consumes no reads). -/

/-- One analysis run of `main` over fixed fetched data, parametrised by the
sequence of `datetime.now()` readings.  Returns the three category results;
`none` models an uncaught `strptime` exception aborting the run. -/
def runAnalysis (u : AccountProfile) (repos : List RepoRecord)
    (events : List ActivityEvent) (clock : ℕ → ℤ) :
    Option (CategoryResult × CategoryResult × CategoryResult) :=
  match analyze_repository_quality repos clock with
  | none => none
  | some rq =>
    match analyze_activity_consistency events (clock repos.length) with
    | none => none
    | some aq => some (analyze_profile_completeness u, rq, aq)

/-! ## Specification-side definitions used for comparison -/

/-- The per-field point table of the specification (§4.1), written from the
spec's table for comparison with the transcription `profileScore`: name 10,
bio 10, location 10, company 10, email 15, blog 15, social handle 15,
`followerCount > 0` 15. -/
def profileTablePoints (u : AccountProfile) : ℕ :=
  (if truthy u.name then 10 else 0) +
  (if truthy u.bio then 10 else 0) +
  (if truthy u.location then 10 else 0) +
  (if truthy u.company then 10 else 0) +
  (if truthy u.email then 15 else 0) +
  (if truthy u.blog then 15 else 0) +
  (if truthy u.twitter_username then 15 else 0) +
  (if u.followers > 0 then 15 else 0)

/-- Single-captured-`now` variant of the recency generator, per the spec's §5
wording: every repository is compared against one reading captured for the
whole run. -/
def recentCountSingle : List RepoRecord → ℤ → Option ℕ
  | [], _ => some 0
  | r :: rs, now =>
    match r.updated_at with
    | none => none
    | some t =>
      match recentCountSingle rs now with
      | none => none
      | some n => some (if t > now - 90 * microPerDay then n + 1 else n)

/-- Repository analyzer under the spec's single-captured-`now` discipline. -/
def analyze_repository_quality_single (repos : List RepoRecord) (now : ℤ) :
    Option CategoryResult :=
  if repos.isEmpty then some { score := 0, details := ["✗ No repositories"] }
  else
    match recentCountSingle repos now with
    | none => none
    | some recent =>
      some { score :=
               countSub repos.length +
               docSub (documentedCount repos) repos.length +
               langSub (languageCount repos) +
               starSub (totalStars repos) +
               recencySub recent repos.length,
             details := repoDetails repos recent }

/-- Full analysis run under the spec's single-captured-`now` discipline: one
reading serves both recency calculations. -/
def runAnalysisSingle (u : AccountProfile) (repos : List RepoRecord)
    (events : List ActivityEvent) (now : ℤ) :
    Option (CategoryResult × CategoryResult × CategoryResult) :=
  match analyze_repository_quality_single repos now with
  | none => none
  | some rq =>
    match analyze_activity_consistency events now with
    | none => none
    | some aq => some (analyze_profile_completeness u, rq, aq)

/-- Two repository records that agree on every field the scoring reads, but
may differ in `forks_count`. -/
def eqExceptForks (r r' : RepoRecord) : Prop :=
  r.description = r'.description ∧ r.language = r'.language ∧
  r.stargazers_count = r'.stargazers_count ∧ r.updated_at = r'.updated_at

/-- Projection of a run result onto the repository-category score. -/
def repoScoreOf (o : Option (CategoryResult × CategoryResult × CategoryResult)) :
    Option ℕ :=
  o.map fun t => t.2.1.score

/-- Projection of a run result onto the activity-category score. -/
def actScoreOf (o : Option (CategoryResult × CategoryResult × CategoryResult)) :
    Option ℕ :=
  o.map fun t => t.2.2.score

/-! ## Concrete inputs used by witnesses and counterexamples -/

/-- A profile with only `name` set and five followers (spec §8 scenario). -/
def nameOnlyProfile : AccountProfile :=
  { name := some "Octocat", bio := none, location := none, company := none,
    email := none, blog := none, twitter_username := none, followers := 5 }

/-- An empty profile. -/
def emptyProfile : AccountProfile :=
  { name := none, bio := none, location := none, company := none,
    email := none, blog := none, twitter_username := none, followers := 0 }

/-- A bare repository record updated at time 0. -/
def trivialRepo : RepoRecord :=
  { description := none, language := none, stargazers_count := 0,
    forks_count := 0, updated_at := some 0 }

/-- A single event of one type created at time 0. -/
def pushEvent : ActivityEvent := { type := some "PushEvent", created_at := some 0 }

/-- The spec §8 scenario collection: 12 repositories, 10 with descriptions,
4 distinct languages, 60 total stars, 7 updated within 90 days of time 0
(the last 5 were updated more than 90 days before time 0). -/
def scenarioRepos : List RepoRecord :=
  [ { description := some "a static site", language := some "Python",
      stargazers_count := 60, forks_count := 3, updated_at := some 0 },
    { description := some "a parser", language := some "C",
      stargazers_count := 0, forks_count := 0, updated_at := some 0 },
    { description := some "a game", language := some "Go",
      stargazers_count := 0, forks_count := 0, updated_at := some 0 },
    { description := some "a bot", language := some "Rust",
      stargazers_count := 0, forks_count := 0, updated_at := some 0 },
    { description := some "a tool", language := some "Python",
      stargazers_count := 0, forks_count := 0, updated_at := some 0 },
    { description := some "a demo", language := none,
      stargazers_count := 0, forks_count := 0, updated_at := some 0 },
    { description := some "a script", language := none,
      stargazers_count := 0, forks_count := 0, updated_at := some 0 },
    { description := some "an archive", language := none,
      stargazers_count := 0, forks_count := 0, updated_at := some (-10000000000000) },
    { description := some "an old fork", language := none,
      stargazers_count := 0, forks_count := 0, updated_at := some (-10000000000000) },
    { description := some "old notes", language := none,
      stargazers_count := 0, forks_count := 0, updated_at := some (-10000000000000) },
    { description := none, language := none,
      stargazers_count := 0, forks_count := 0, updated_at := some (-10000000000000) },
    { description := none, language := none,
      stargazers_count := 0, forks_count := 0, updated_at := some (-10000000000000) } ]

/-- Two single-repository collections that differ only in `forks_count`. -/
def forkRepoA : RepoRecord :=
  { description := some "a tool", language := some "Python",
    stargazers_count := 3, forks_count := 0, updated_at := some 0 }

/-- Companion of `forkRepoA` with a different fork count. -/
def forkRepoB : RepoRecord :=
  { description := some "a tool", language := some "Python",
    stargazers_count := 3, forks_count := 7, updated_at := some 0 }

/-! ## Helper lemmas -/

lemma countSub_bounds (n : ℕ) : 10 ≤ countSub n ∧ countSub n ≤ 20 := by
  unfold countSub; split_ifs <;> omega

lemma docSub_bounds (d t : ℕ) : 10 ≤ docSub d t ∧ docSub d t ≤ 25 := by
  unfold docSub; split_ifs <;> omega

lemma langSub_bounds (n : ℕ) : 10 ≤ langSub n ∧ langSub n ≤ 20 := by
  unfold langSub; split_ifs <;> omega

lemma starSub_bounds (n : ℕ) : 5 ≤ starSub n ∧ starSub n ≤ 15 := by
  unfold starSub; split_ifs <;> omega

lemma recencySub_bounds (r t : ℕ) : 5 ≤ recencySub r t ∧ recencySub r t ≤ 15 := by
  unfold recencySub; split_ifs <;> omega

lemma isEmpty_false_of_ne_nil {l : List RepoRecord} (h : l ≠ []) :
    l.isEmpty = false := by
  cases l with
  | nil => exact absurd rfl h
  | cons a as => rfl

/-! ## Claims -/

/-- C4: For every `AccountProfile` input, the profile completeness score
equals the exact sum of the per-field point table and lies in `[0, 100]`;
the profile with only `name` set and `followerCount = 5` scores
`10 + 15 = 25`. -/
theorem profile_score_table :
    (∀ u : AccountProfile,
        (analyze_profile_completeness u).score = profileTablePoints u ∧
        0 ≤ (analyze_profile_completeness u).score ∧
        (analyze_profile_completeness u).score ≤ 100) ∧
    (analyze_profile_completeness nameOnlyProfile).score = 25 := by
  constructor
  · intro u
    refine ⟨rfl, Nat.zero_le _, ?_⟩
    show profileScore u ≤ 100
    unfold profileScore
    have h1 : (if truthy u.name then 10 else 0) ≤ 10 := by split_ifs <;> omega
    have h2 : (if truthy u.bio then 10 else 0) ≤ 10 := by split_ifs <;> omega
    have h3 : (if truthy u.location then 10 else 0) ≤ 10 := by split_ifs <;> omega
    have h4 : (if truthy u.company then 10 else 0) ≤ 10 := by split_ifs <;> omega
    have h5 : (if truthy u.email then 15 else 0) ≤ 15 := by split_ifs <;> omega
    have h6 : (if truthy u.blog then 15 else 0) ≤ 15 := by split_ifs <;> omega
    have h7 : (if truthy u.twitter_username then 15 else 0) ≤ 15 := by
      split_ifs <;> omega
    have h8 : (if u.followers > 0 then 15 else 0) ≤ 15 := by split_ifs <;> omega
    omega
  · decide

/-- C2: Tier classification of the composite total is exact and first-match in
the stated order: `total ≥ 240` is "excellent", `180 ≤ total < 240` is "good",
`total < 180` is "needs improvement"; in particular 240 is excellent, 239 and
180 are good, and 179 is needs improvement. -/
theorem tier_thresholds :
    (∀ t : ℕ,
        (t ≥ 240 → tierOf t = "excellent") ∧
        (180 ≤ t → t < 240 → tierOf t = "good") ∧
        (t < 180 → tierOf t = "needs improvement")) ∧
    tierOf 240 = "excellent" ∧ tierOf 239 = "good" ∧ tierOf 180 = "good" ∧
    tierOf 179 = "needs improvement" := by
  refine ⟨fun t => ⟨?_, ?_, ?_⟩, by decide, by decide, by decide, by decide⟩
  · intro h; unfold tierOf; rw [if_pos h]
  · intro h1 h2; unfold tierOf; rw [if_neg (by omega), if_pos h1]
  · intro h; unfold tierOf; rw [if_neg (by omega), if_neg (by omega)]

/-- Witness for C2 at the boundary input 239. -/
theorem tier_thresholds_witness :
    180 ≤ 239 ∧ 239 < 240 ∧ tierOf 239 = "good" :=
  ⟨by omega, by omega, (tier_thresholds.1 239).2.1 (by omega) (by omega)⟩

/-- C3: The composite total is the arithmetic sum
`profile.score + repository.score + activity.score` with no clamping, and for
category scores each in `[0, 100]` the total lies in `[0, 300]`. -/
theorem total_score_sum (p r a : ℕ) (hp : p ≤ 100) (hr : r ≤ 100)
    (ha : a ≤ 100) :
    total_score p r a = p + r + a ∧ 0 ≤ total_score p r a ∧
    total_score p r a ≤ 300 := by
  refine ⟨rfl, Nat.zero_le _, ?_⟩
  unfold total_score; omega

/-- Witness for C3 at scores 25, 90, 80. -/
theorem total_score_sum_witness :
    total_score 25 90 80 = 25 + 90 + 80 ∧ total_score 25 90 80 ≤ 300 := by
  have h := total_score_sum 25 90 80 (by omega) (by omega) (by omega)
  exact ⟨h.1, h.2.2⟩

/-- C5: The empty repository collection yields score 0 with exactly one
explanatory detail, and the empty event collection yields score 0 with exactly
one explanatory detail; neither analyzer can raise on empty input (the result
is `some`, never the exception `none`), whatever the clock reads. -/
theorem empty_collections_zero :
    (∀ clock : ℕ → ℤ, analyze_repository_quality [] clock =
      some { score := 0, details := ["✗ No repositories"] }) ∧
    (∀ now : ℤ, analyze_activity_consistency [] now =
      some { score := 0, details := ["✗ No recent activity"] }) := by
  exact ⟨fun _ => rfl, fun _ => rfl⟩

/-- C1: For every non-empty repository collection whose timestamps all parse
(i.e. the recency generator evaluates to `some recent`), the repository score
is the sum of the five threshold-bucketed sub-components: count
(`countSub`), documentation ratio (`docSub`), distinct non-empty languages
(`langSub`), total stars (`starSub`) and recently-updated fraction
(`recencySub`). -/
theorem repo_score_decomposition (repos : List RepoRecord) (clock : ℕ → ℤ)
    (recent : ℕ) (hne : repos ≠ [])
    (hrec : recentCount repos clock 0 = some recent) :
    ∃ res : CategoryResult,
      analyze_repository_quality repos clock = some res ∧
      res.score = countSub repos.length +
        docSub (documentedCount repos) repos.length +
        langSub (languageCount repos) +
        starSub (totalStars repos) +
        recencySub recent repos.length := by
  unfold analyze_repository_quality
  rw [isEmpty_false_of_ne_nil hne, hrec]
  exact ⟨_, rfl, rfl⟩

/-- Witness for C1: the scenario collection (12 repositories, 10 documented,
4 distinct languages, 60 stars, 7 recent at evaluation time 0) scores exactly
`20 + 25 + 15 + 15 + 15 = 90`. -/
theorem repo_score_decomposition_witness :
    ∃ res : CategoryResult,
      analyze_repository_quality scenarioRepos (fun _ => 0) = some res ∧
      res.score = 90 := by
  obtain ⟨res, h1, h2⟩ := repo_score_decomposition scenarioRepos (fun _ => 0) 7
    (by decide) (by decide)
  refine ⟨res, h1, ?_⟩
  rw [h2]
  have hlen : scenarioRepos.length = 12 := by decide
  have hdoc : documentedCount scenarioRepos = 10 := by decide
  have hlang : languageCount scenarioRepos = 4 := by decide
  have hstars : totalStars scenarioRepos = 60 := by decide
  rw [hlen, hdoc, hlang, hstars]
  have h80 : docPercentage 10 12 ≥ 80 := by unfold docPercentage; norm_num
  unfold countSub docSub langSub starSub recencySub
  rw [if_pos h80]
  norm_num

/-- C10: For every non-empty repository collection whose timestamps all parse,
the repository score lies in `[40, 95]`: the five sub-components award at
least `10+10+10+5+5 = 40` and at most `20+25+20+15+15 = 95`, so scores in
`96..100` are unattainable. -/
theorem repo_score_range (repos : List RepoRecord) (clock : ℕ → ℤ)
    (res : CategoryResult) (hne : repos ≠ [])
    (h : analyze_repository_quality repos clock = some res) :
    40 ≤ res.score ∧ res.score ≤ 95 := by
  unfold analyze_repository_quality at h
  rw [isEmpty_false_of_ne_nil hne] at h
  cases hrec : recentCount repos clock 0 with
  | none => rw [hrec] at h; exact absurd h (by simp)
  | some recent =>
    rw [hrec] at h
    have hres : res.score = countSub repos.length +
        docSub (documentedCount repos) repos.length +
        langSub (languageCount repos) +
        starSub (totalStars repos) +
        recencySub recent repos.length := by
      cases h; rfl
    have b1 := countSub_bounds repos.length
    have b2 := docSub_bounds (documentedCount repos) repos.length
    have b3 := langSub_bounds (languageCount repos)
    have b4 := starSub_bounds (totalStars repos)
    have b5 := recencySub_bounds recent repos.length
    omega

/-- Witness for C10 at a one-repository collection: its score is in `[40, 95]`. -/
theorem repo_score_range_witness :
    ∃ res : CategoryResult,
      analyze_repository_quality [trivialRepo] (fun _ => 0) = some res ∧
      40 ≤ res.score ∧ res.score ≤ 95 := by
  cases hres : analyze_repository_quality [trivialRepo] (fun _ => 0) with
  | none =>
    have h1 : recentCount [trivialRepo] (fun _ => 0) 0 = some 1 := by decide
    unfold analyze_repository_quality at hres
    rw [h1] at hres
    exact absurd hres (by simp)
  | some res =>
    exact ⟨res, rfl, repo_score_range [trivialRepo] (fun _ => 0) res
      (by decide) hres⟩

/-- C8: Holding the repository count fixed, the documentation sub-score is
monotonically non-decreasing in the number of documented repositories. -/
theorem docSub_monotone (t d d' : ℕ) (h : d ≤ d') : docSub d t ≤ docSub d' t := by
  have hp : docPercentage d t ≤ docPercentage d' t := by
    unfold docPercentage
    have hd : (d : ℚ) ≤ (d' : ℚ) := by exact_mod_cast h
    rcases Nat.eq_zero_or_pos t with ht | ht
    · subst ht; simp
    · have ht' : (0 : ℚ) < (t : ℚ) := by exact_mod_cast ht
      gcongr
  unfold docSub
  split_ifs <;> first | omega | linarith

/-- Witness for C8: with 12 repositories, going from 8 to 10 documented moves
the documentation sub-score from 20 up to 25. -/
theorem docSub_monotone_witness :
    docSub 8 12 = 20 ∧ docSub 10 12 = 25 ∧ docSub 8 12 ≤ docSub 10 12 := by
  refine ⟨?_, ?_, docSub_monotone 12 8 10 (by omega)⟩
  · unfold docSub docPercentage; norm_num
  · unfold docSub docPercentage; norm_num

lemma documentedCount_congr {rs rs' : List RepoRecord}
    (h : List.Forall₂ eqExceptForks rs rs') :
    documentedCount rs = documentedCount rs' := by
  induction h with
  | nil => rfl
  | @cons a b l l' hr ht ih =>
    unfold documentedCount at ih ⊢
    simp only [List.filter_cons, hr.1]
    split_ifs <;> simp [ih]

lemma languageCount_congr {rs rs' : List RepoRecord}
    (h : List.Forall₂ eqExceptForks rs rs') :
    languageCount rs = languageCount rs' := by
  have hfm : rs.filterMap (fun r => if truthy r.language then r.language else none) =
      rs'.filterMap (fun r => if truthy r.language then r.language else none) := by
    induction h with
    | nil => rfl
    | @cons a b l l' hr ht ih =>
      simp only [List.filterMap_cons, hr.2.1, ih]
  unfold languageCount
  rw [hfm]

lemma totalStars_congr {rs rs' : List RepoRecord}
    (h : List.Forall₂ eqExceptForks rs rs') :
    totalStars rs = totalStars rs' := by
  induction h with
  | nil => rfl
  | @cons a b l l' hr ht ih =>
    unfold totalStars at ih ⊢
    simp only [List.map_cons, List.sum_cons, hr.2.2.1, ih]

lemma recentCount_congr {rs rs' : List RepoRecord} (clock : ℕ → ℤ)
    (h : List.Forall₂ eqExceptForks rs rs') :
    ∀ i, recentCount rs clock i = recentCount rs' clock i := by
  induction h with
  | nil => intro i; rfl
  | @cons a b l l' hr ht ih =>
    intro i
    unfold recentCount
    rw [hr.2.2.2, ih (i + 1)]

lemma repoDetails_congr {rs rs' : List RepoRecord}
    (h : List.Forall₂ eqExceptForks rs rs') :
    ∀ recent, repoDetails rs recent = repoDetails rs' recent := by
  intro recent
  unfold repoDetails
  rw [h.length_eq, documentedCount_congr h, languageCount_congr h,
    totalStars_congr h]

/-- C7: Two repository collections identical except for `forkCount` values
produce the same analysis result (in particular the same score):
`forks_count` is summed by the source but never read by any scoring or
detail decision. -/
theorem forks_do_not_affect_result (repos repos' : List RepoRecord)
    (clock : ℕ → ℤ) (h : List.Forall₂ eqExceptForks repos repos') :
    analyze_repository_quality repos clock =
    analyze_repository_quality repos' clock := by
  have hE : repos.isEmpty = repos'.isEmpty := by
    cases h with
    | nil => rfl
    | cons hr ht => rfl
  unfold analyze_repository_quality
  simp only [hE, h.length_eq, documentedCount_congr h, languageCount_congr h,
    totalStars_congr h, recentCount_congr clock h 0, repoDetails_congr h]

/-- Witness for C7: one-repository collections differing only in fork count
(0 vs 7) give identical results. -/
theorem forks_do_not_affect_result_witness :
    analyze_repository_quality [forkRepoA] (fun _ => 0) =
    analyze_repository_quality [forkRepoB] (fun _ => 0) :=
  forks_do_not_affect_result [forkRepoA] [forkRepoB] (fun _ => 0)
    (List.Forall₂.cons ⟨rfl, rfl, rfl, rfl⟩ List.Forall₂.nil)

lemma profileRemark_ne_repoRemark1 : profileRemark ≠ repoRemark1 := by decide

lemma profileRemark_ne_repoRemark2 : profileRemark ≠ repoRemark2 := by decide

lemma profileRemark_ne_activityRemark : profileRemark ≠ activityRemark := by decide

lemma repoRemark1_ne_repoRemark2 : repoRemark1 ≠ repoRemark2 := by decide

lemma repoRemark1_ne_activityRemark : repoRemark1 ≠ activityRemark := by decide

lemma repoRemark2_ne_activityRemark : repoRemark2 ≠ activityRemark := by decide

lemma closing_ne_profileRemark (t : ℕ) : closingRemark t ≠ profileRemark := by
  unfold closingRemark; split_ifs <;> decide

lemma closing_ne_repoRemark1 (t : ℕ) : closingRemark t ≠ repoRemark1 := by
  unfold closingRemark; split_ifs <;> decide

lemma closing_ne_repoRemark2 (t : ℕ) : closingRemark t ≠ repoRemark2 := by
  unfold closingRemark; split_ifs <;> decide

lemma closing_ne_activityRemark (t : ℕ) : closingRemark t ≠ activityRemark := by
  unfold closingRemark; split_ifs <;> decide

lemma profileRemark_ne_closing (t : ℕ) : profileRemark ≠ closingRemark t :=
  (closing_ne_profileRemark t).symm

lemma repoRemark1_ne_closing (t : ℕ) : repoRemark1 ≠ closingRemark t :=
  (closing_ne_repoRemark1 t).symm

lemma repoRemark2_ne_closing (t : ℕ) : repoRemark2 ≠ closingRemark t :=
  (closing_ne_repoRemark2 t).symm

lemma activityRemark_ne_closing (t : ℕ) : activityRemark ≠ closingRemark t :=
  (closing_ne_activityRemark t).symm

/-- C9: Recommendation output is a pure function of the three category scores
against the 80-point threshold: each category strictly below 80 contributes
its fixed remark(s) (these appear iff the score is below 80), remarks come in
category order (profile, repository, activity) as shown by the explicit
all-below shape, a category at or above 80 contributes nothing, and the
remarks are followed by exactly one tier-driven closing remark (the list ends
with it and no closing remark occurs earlier). -/
theorem recommendations_structure (p r a : ℕ) :
    (profileRemark ∈ recommendations p r a ↔ p < 80) ∧
    (repoRemark1 ∈ recommendations p r a ↔ r < 80) ∧
    (repoRemark2 ∈ recommendations p r a ↔ r < 80) ∧
    (activityRemark ∈ recommendations p r a ↔ a < 80) ∧
    (∃ pre : List String,
        recommendations p r a = pre ++ [closingRemark (total_score p r a)] ∧
        ∀ t : ℕ, closingRemark t ∉ pre) ∧
    (p < 80 → r < 80 → a < 80 → recommendations p r a =
      [profileRemark, repoRemark1, repoRemark2, activityRemark,
       closingRemark (total_score p r a)]) ∧
    (80 ≤ p → 80 ≤ r → 80 ≤ a →
      recommendations p r a = [closingRemark (total_score p r a)]) := by
  refine ⟨?_, ?_, ?_, ?_, ?_, ?_, ?_⟩
  · unfold recommendations
    by_cases hp : p < 80 <;> by_cases hr : r < 80 <;> by_cases ha : a < 80 <;>
      simp [hp, hr, ha, profileRemark_ne_repoRemark1, profileRemark_ne_repoRemark2,
        profileRemark_ne_activityRemark, profileRemark_ne_closing]
  · unfold recommendations
    by_cases hp : p < 80 <;> by_cases hr : r < 80 <;> by_cases ha : a < 80 <;>
      simp [hp, hr, ha, profileRemark_ne_repoRemark1.symm,
        repoRemark1_ne_repoRemark2, repoRemark1_ne_activityRemark,
        repoRemark1_ne_closing]
  · unfold recommendations
    by_cases hp : p < 80 <;> by_cases hr : r < 80 <;> by_cases ha : a < 80 <;>
      simp [hp, hr, ha, profileRemark_ne_repoRemark2.symm,
        repoRemark1_ne_repoRemark2.symm, repoRemark2_ne_activityRemark,
        repoRemark2_ne_closing]
  · unfold recommendations
    by_cases hp : p < 80 <;> by_cases hr : r < 80 <;> by_cases ha : a < 80 <;>
      simp [hp, hr, ha, profileRemark_ne_activityRemark.symm,
        repoRemark1_ne_activityRemark.symm, repoRemark2_ne_activityRemark.symm,
        activityRemark_ne_closing]
  · refine ⟨(if p < 80 then [profileRemark] else []) ++
      ((if r < 80 then [repoRemark1, repoRemark2] else []) ++
       (if a < 80 then [activityRemark] else [])), ?_, ?_⟩
    · unfold recommendations
      simp [List.append_assoc]
    · intro t
      split_ifs <;>
        simp [closing_ne_profileRemark, closing_ne_repoRemark1,
          closing_ne_repoRemark2, closing_ne_activityRemark]
  · intro hp hr ha
    unfold recommendations
    simp [hp, hr, ha]
  · intro hp hr ha
    unfold recommendations
    simp [Nat.not_lt.mpr hp, Nat.not_lt.mpr hr, Nat.not_lt.mpr ha]

/-- Witness for C9: with scores 25, 45, 60 (all below 80) the output is the
four remarks in category order followed by the closing remark for total 130. -/
theorem recommendations_structure_witness :
    recommendations 25 45 60 =
      [profileRemark, repoRemark1, repoRemark2, activityRemark,
       closingRemark 130] := by
  have h := (recommendations_structure 25 45 60).2.2.2.2.2.1
    (by omega) (by omega) (by omega)
  simpa [total_score] using h

lemma docSub_zero_one : docSub 0 1 = 10 := by
  unfold docSub docPercentage; norm_num

lemma recencySub_one_one : recencySub 1 1 = 15 := by
  unfold recencySub; norm_num

lemma recencySub_zero_one : recencySub 0 1 = 5 := by
  unfold recencySub; norm_num

lemma run_const_zero_repo_score :
    repoScoreOf (runAnalysis emptyProfile [trivialRepo] [pushEvent]
      (fun _ => 0)) = some 50 := by
  have h1 : recentCount [trivialRepo] (fun _ => 0) 0 = some 1 := by decide
  have hdoc : documentedCount [trivialRepo] = 0 := by decide
  have hlang : languageCount [trivialRepo] = 0 := by decide
  have hstars : totalStars [trivialRepo] = 0 := by decide
  have hrq : analyze_repository_quality [trivialRepo] (fun _ => 0) =
      some { score := 50, details := repoDetails [trivialRepo] 1 } := by
    unfold analyze_repository_quality
    rw [h1]
    simp only [List.isEmpty_cons, Bool.false_eq_true, if_false, hdoc, hlang,
      hstars, List.length_cons, List.length_nil]
    norm_num [countSub, langSub, starSub, docSub_zero_one, recencySub_one_one]
  have hact : analyze_activity_consistency [pushEvent] 0 =
      some { score := 60,
             details := activityDetails [pushEvent] 0 } := by decide
  simp [repoScoreOf, runAnalysis, hrq, hact]

lemma run_late_clock_repo_score :
    repoScoreOf (runAnalysis emptyProfile [trivialRepo] [pushEvent]
      (fun n => if n = 0 then 100 * microPerDay else 0)) = some 40 := by
  have h1 : recentCount [trivialRepo]
      (fun n => if n = 0 then 100 * microPerDay else 0) 0 = some 0 := by decide
  have hdoc : documentedCount [trivialRepo] = 0 := by decide
  have hlang : languageCount [trivialRepo] = 0 := by decide
  have hstars : totalStars [trivialRepo] = 0 := by decide
  have hrq : analyze_repository_quality [trivialRepo]
      (fun n => if n = 0 then 100 * microPerDay else 0) =
      some { score := 40, details := repoDetails [trivialRepo] 0 } := by
    unfold analyze_repository_quality
    rw [h1]
    simp only [List.isEmpty_cons, Bool.false_eq_true, if_false, hdoc, hlang,
      hstars, List.length_cons, List.length_nil]
    norm_num [countSub, langSub, starSub, docSub_zero_one, recencySub_zero_one]
  have hact : analyze_activity_consistency [pushEvent] 0 =
      some { score := 60,
             details := activityDetails [pushEvent] 0 } := by decide
  simp [repoScoreOf, runAnalysis, hrq, hact]

/-- C6 counterexample: on the concrete run with one repository (updated at
time 0) and one event (created at time 0), no single clock reading determines
the results.  The repository recency check uses the first `datetime.now()`
read and the activity recency check uses the second, so for every candidate
"the captured reading" index `i` there are two read sequences agreeing at `i`
that produce different results. -/
theorem single_clock_read_counterexample :
    ¬ ∃ i : ℕ, ∀ c c' : ℕ → ℤ, c i = c' i →
        runAnalysis emptyProfile [trivialRepo] [pushEvent] c =
        runAnalysis emptyProfile [trivialRepo] [pushEvent] c' := by
  rintro ⟨i, h⟩
  cases i with
  | zero =>
    have hc := h (fun _ => 0)
      (fun n => if n = 0 then 0 else 40 * microPerDay) rfl
    exact absurd (congrArg actScoreOf hc) (by decide)
  | succ j =>
    have hc := h (fun _ => 0)
      (fun n => if n = 0 then 100 * microPerDay else 0) (by simp)
    have heq := congrArg repoScoreOf hc
    rw [run_const_zero_repo_score, run_late_clock_repo_score] at heq
    exact absurd heq (by decide)

lemma recentCount_const (t : ℤ) :
    ∀ (rs : List RepoRecord) (i : ℕ),
      recentCount rs (fun _ => t) i = recentCountSingle rs t := by
  intro rs
  induction rs with
  | nil => intro i; rfl
  | cons r rs ih =>
    intro i
    unfold recentCount recentCountSingle
    rw [ih (i + 1)]

/-- C6 (amended): the source reads the clock once per repository in the
repository recency generator and once more in the activity analyzer, rather
than capturing a single `now`; but whenever every reading returns the same
value, the run coincides with the spec's single-captured-`now` analysis. -/
theorem constant_clock_matches_single_capture (u : AccountProfile)
    (repos : List RepoRecord) (events : List ActivityEvent) (t : ℤ) :
    runAnalysis u repos events (fun _ => t) =
    runAnalysisSingle u repos events t := by
  unfold runAnalysis runAnalysisSingle analyze_repository_quality
    analyze_repository_quality_single
  rw [recentCount_const t repos 0]
